import Mathlib

/-! Verification development for the wavefront_rs entity codec: the OBJ entity
model and conversion façade (src/obj/entity.rs) and the MTL writer
(src/mtl/writer.rs), with the parts of the repository referenced but not
provided (the OBJ line lexer, the MTL entity model, the error type) modelled
from the specification. Numeric fields that are 64-bit floats in the source
are modelled as exact rationals. -/

namespace Wavefront

/-- Numeric model of the source's 64-bit float fields: exact rationals, which
preserve value identity and keep optional-field absence distinguishable from
any present value. -/
abbrev F64 := Rat

/-- Joins strings with a single space between consecutive elements, the shape
of the fields part of a written line. -/
def joinSpace : List String → String
  | [] => ""
  | [s] => s
  | s :: rest => s ++ " " ++ joinSpace rest

namespace Obj

/-- The single-line text type of the façade (src/obj/entity.rs: pub type
Format = String). -/
abbrev Format := String

/-- Describes a vertex in a face (src/obj/entity.rs, struct FaceVertex): the
vertex index, an optional normal index and an optional texture index. -/
structure FaceVertex where
  vertex : Int
  normal : Option Int
  texture : Option Int
deriving DecidableEq

/-- Constructor FaceVertex::new (src/obj/entity.rs lines 72 to 78): only the
vertex index, both optional indices absent. -/
def FaceVertex.new (vertex : Int) : FaceVertex :=
  { vertex := vertex, normal := none, texture := none }

/-- Constructor FaceVertex::new2 (src/obj/entity.rs lines 80 to 86): all three
fields given. -/
def FaceVertex.new2 (vertex : Int) (normal : Option Int) (texture : Option Int) :
    FaceVertex :=
  { vertex := vertex, normal := normal, texture := texture }

/-- All possible entities of the OBJ format (src/obj/entity.rs, enum Entity). -/
inductive Entity
  | Comment (content : String)
  | Object (name : String)
  | Group (name : String)
  | SmoothingGroup (name : String)
  | Mtllib (name : String)
  | Usemtl (name : String)
  | Vertex (x y z : F64) (w : Option F64)
  | VertexNormal (x y z : F64)
  | VertexTexture (x y : F64) (z : Option F64)
  | Face (vertices : List FaceVertex)
  | Line (vertices : List Int)
deriving DecidableEq

/-- The canonical token of each OBJ entity variant (src/obj/entity.rs,
Entity::token, lines 43 to 57). -/
def Entity.token : Entity → String
  | .Comment _ => "#"
  | .Object _ => "o"
  | .Group _ => "g"
  | .SmoothingGroup _ => "s"
  | .Mtllib _ => "mtllib"
  | .Usemtl _ => "usemtl"
  | .Vertex _ _ _ _ => "v"
  | .VertexNormal _ _ _ => "vn"
  | .VertexTexture _ _ _ => "vt"
  | .Face _ => "f"
  | .Line _ => "l"

/-- Constructor index of an OBJ entity; two entities of distinct variants have
distinct tags. Used to state injectivity of the token table. -/
def Entity.tag : Entity → Nat
  | .Comment _ => 0
  | .Object _ => 1
  | .Group _ => 2
  | .SmoothingGroup _ => 3
  | .Mtllib _ => 4
  | .Usemtl _ => 5
  | .Vertex _ _ _ _ => 6
  | .VertexNormal _ _ _ => 7
  | .VertexTexture _ _ _ => 8
  | .Face _ => 9
  | .Line _ => 10

/-- Reads a recognized token back to the tag of the variant owning it; any
other string maps to 11, outside the range of Entity.tag. -/
def tagOfToken : String → Nat
  | "#" => 0
  | "o" => 1
  | "g" => 2
  | "s" => 3
  | "mtllib" => 4
  | "usemtl" => 5
  | "v" => 6
  | "vn" => 7
  | "vt" => 8
  | "f" => 9
  | "l" => 10
  | _ => 11

/-- Splits a character list on runs of whitespace, accumulating the current
word in reverse; whitespace runs produce no empty words. -/
def wordsAux : List Char → List Char → List (List Char)
  | [], acc => if acc = [] then [] else [acc.reverse]
  | c :: cs, acc =>
    if c.isWhitespace then
      if acc = [] then wordsAux cs [] else acc.reverse :: wordsAux cs []
    else wordsAux cs (c :: acc)

/-- The whitespace-separated tokens of one line (spec section 4.2 step 1:
split the line on runs of whitespace; empty lines or lines with no tokens
produce no tokens). -/
def tokensOf (line : String) : List String :=
  (wordsAux line.data []).map String.mk

/-- Splits a character list on a separator character; consecutive separators
produce empty groups, as the face sub-field grammar requires. -/
def splitOnChar (sep : Char) : List Char → List (List Char)
  | [] => [[]]
  | c :: cs =>
    if c = sep then [] :: splitOnChar sep cs
    else
      match splitOnChar sep cs with
      | [] => [[c]]
      | g :: gs => (c :: g) :: gs

/-- Parses a nonempty run of decimal digits to a natural number; any other
character or an empty run fails. -/
def digitsToNat : List Char → Option Nat
  | [] => none
  | cs =>
    cs.foldlM
      (fun n c =>
        if c.isDigit then some (n * 10 + (c.toNat - Char.toNat '0')) else none)
      0

/-- Parses a 64-bit integer field: an optional sign followed by decimal
digits; overflow is not modelled, the value is the exact integer. -/
def parseInt : List Char → Option Int
  | '-' :: cs => (digitsToNat cs).map (fun n => -(n : Int))
  | '+' :: cs => (digitsToNat cs).map (fun n => (n : Int))
  | cs => (digitsToNat cs).map (fun n => (n : Int))

/-- Modelled from the spec: parsing of a 64-bit float field (spec section 4.2
step 3: malformed numeric text fails). The numeral is an optional sign, an
integer part and an optional fraction part, read exactly into the rational
model of f64. -/
def parseF64 (s : String) : Option F64 :=
  let core : List Char → Option F64 := fun cs =>
    match splitOnChar '.' cs with
    | [ip] => (digitsToNat ip).map (fun n => (n : F64))
    | [ip, fp] => do
        let a ← digitsToNat ip
        let b ← digitsToNat fp
        pure ((a : F64) + (b : F64) / (10 : F64) ^ fp.length)
    | _ => none
  match s.data with
  | '-' :: cs => (core cs).map (fun q => -q)
  | '+' :: cs => core cs
  | cs => core cs

/-- Modelled from the spec: one face token split on the slash into up to
three sub-fields in the published order vertex, texture, normal (spec
section 6 face field grammar); a sub-field is present only if non-empty, the
vertex is required, and each present sub-field parses as a 64-bit integer. -/
def parseFaceVertex (s : String) : Option FaceVertex :=
  let sub : List Char → Option (Option Int) := fun cs =>
    if cs = [] then some none else (parseInt cs).map some
  match splitOnChar '/' s.data with
  | [v] => (parseInt v).map FaceVertex.new
  | [v, t] => do
      let vi ← parseInt v
      let ti ← sub t
      pure (FaceVertex.new2 vi none ti)
  | [v, t, n] => do
      let vi ← parseInt v
      let ti ← sub t
      let ni ← sub n
      pure (FaceVertex.new2 vi ni ti)
  | _ => none

/-- Modelled from the spec: the OBJ line lexer ReadLexer::read_line (the
repository's src/obj/read_lexer.rs is referenced by src/obj/entity.rs but not
among the provided sources; spec sections 4.2 and 7). It splits the line into
whitespace-separated tokens, fails on a line with no tokens, dispatches on the
leading canonical token, re-joins free-text fields with single spaces, parses
numeric fields, fails on wrong arity, malformed fields and unrecognized
leading tokens, and never recovers a failure. -/
def ReadLexer.read_line (line : String) : Except String Entity :=
  match tokensOf line with
  | [] => Except.error "line has no tokens"
  | tok :: rest =>
    match tok with
    | "#" => Except.ok (Entity.Comment (joinSpace rest))
    | "o" => Except.ok (Entity.Object (joinSpace rest))
    | "g" => Except.ok (Entity.Group (joinSpace rest))
    | "s" => Except.ok (Entity.SmoothingGroup (joinSpace rest))
    | "mtllib" => Except.ok (Entity.Mtllib (joinSpace rest))
    | "usemtl" => Except.ok (Entity.Usemtl (joinSpace rest))
    | "v" =>
      match rest with
      | [x, y, z] =>
        match parseF64 x, parseF64 y, parseF64 z with
        | some a, some b, some c => Except.ok (Entity.Vertex a b c none)
        | _, _, _ => Except.error "malformed number in v"
      | [x, y, z, w] =>
        match parseF64 x, parseF64 y, parseF64 z, parseF64 w with
        | some a, some b, some c, some d => Except.ok (Entity.Vertex a b c (some d))
        | _, _, _, _ => Except.error "malformed number in v"
      | _ => Except.error "wrong number of fields for v"
    | "vn" =>
      match rest with
      | [x, y, z] =>
        match parseF64 x, parseF64 y, parseF64 z with
        | some a, some b, some c => Except.ok (Entity.VertexNormal a b c)
        | _, _, _ => Except.error "malformed number in vn"
      | _ => Except.error "wrong number of fields for vn"
    | "vt" =>
      match rest with
      | [x, y] =>
        match parseF64 x, parseF64 y with
        | some a, some b => Except.ok (Entity.VertexTexture a b none)
        | _, _ => Except.error "malformed number in vt"
      | [x, y, z] =>
        match parseF64 x, parseF64 y, parseF64 z with
        | some a, some b, some c => Except.ok (Entity.VertexTexture a b (some c))
        | _, _, _ => Except.error "malformed number in vt"
      | _ => Except.error "wrong number of fields for vt"
    | "f" =>
      match rest.mapM parseFaceVertex with
      | some vs => Except.ok (Entity.Face vs)
      | none => Except.error "malformed face vertex"
    | "l" =>
      match rest.mapM (fun t => parseInt t.data) with
      | some vs => Except.ok (Entity.Line vs)
      | none => Except.error "malformed vertex index in l"
    | _ => Except.error ("unknown entity " ++ tok)

/-- The conversion façade From Format for Entity (src/obj/entity.rs lines 97
to 101): it runs the lexer on the single-line source and unwraps the result.
The From signature has no error channel; unwrap on a lexer failure panics, so
a panicking call returns no value to the caller, modelled by none. -/
def Entity.fromFormat (input : Format) : Option Entity :=
  (ReadLexer.read_line input).toOption

end Obj

namespace Mtl

/-- Modelled from the spec: the MTL illumination mode (the repository's
src/mtl/entity.rs is referenced by src/mtl/writer.rs but not among the
provided sources). The spec fixes it as a closed enumerated value convertible
to and from its numeric code, recognizing code 2 and rejecting 99; the
recognized codes are taken to be the standard illumination models 0 to 10. -/
inductive IllumMode
  | illum0
  | illum1
  | illum2
  | illum3
  | illum4
  | illum5
  | illum6
  | illum7
  | illum8
  | illum9
  | illum10
deriving DecidableEq

/-- The numeric code of an illumination mode. -/
def IllumMode.code : IllumMode → Nat
  | .illum0 => 0
  | .illum1 => 1
  | .illum2 => 2
  | .illum3 => 3
  | .illum4 => 4
  | .illum5 => 5
  | .illum6 => 6
  | .illum7 => 7
  | .illum8 => 8
  | .illum9 => 9
  | .illum10 => 10

/-- Rendering of an illumination mode, the mode.to_string() call of the
writer's Illum arm: the decimal digits of its integer code (spec: the Illum
mode renders as its integer code). -/
def IllumMode.toString (m : IllumMode) : String := Nat.repr m.code

/-- Modelled from the spec: the MTL entity set (src/mtl/entity.rs is not
among the provided sources; the variant names and field shapes are those the
provided src/mtl/writer.rs matches on, the field types those of spec
section 3). -/
inductive Entity
  | Comment (content : String)
  | MaterialName (name : String)
  | AmbientColor (r g b : F64)
  | DiffuseColor (r g b : F64)
  | SpecularColor (r g b : F64)
  | SpecularHighlights (value : F64)
  | OpticalDensity (value : F64)
  | Dissolve (value : F64)
  | InvertedDissolve (value : F64)
  | Illum (mode : IllumMode)
  | TextureMapAmbient (file : String)
  | TextureMapDiffuse (file : String)
  | TransmissionFilterColorRGB (r g b : F64)
  | TextureMapSpecular (file : String)
  | TextureMapHighlight (file : String)
  | TextureMapAlpha (file : String)
  | BumpMap (file : String)
  | DisplacementMap (file : String)
  | StencilDecalTextureMap (file : String)
  | SphericalReflectionMap (file : String)
deriving DecidableEq

/-- Modelled from the spec: the canonical token of each MTL entity variant
(spec section 6 token grammar; src/mtl/entity.rs is not among the provided
sources). For the bump map the spec lists the spellings bump and map_bump;
bump is taken as the canonical one the writer emits. -/
def Entity.token : Entity → String
  | .Comment _ => "#"
  | .MaterialName _ => "newmtl"
  | .AmbientColor _ _ _ => "Ka"
  | .DiffuseColor _ _ _ => "Kd"
  | .SpecularColor _ _ _ => "Ks"
  | .SpecularHighlights _ => "Ns"
  | .OpticalDensity _ => "Ni"
  | .Dissolve _ => "d"
  | .InvertedDissolve _ => "Tr"
  | .Illum _ => "illum"
  | .TextureMapAmbient _ => "map_Ka"
  | .TextureMapDiffuse _ => "map_Kd"
  | .TransmissionFilterColorRGB _ _ _ => "Tf"
  | .TextureMapSpecular _ => "map_Ks"
  | .TextureMapHighlight _ => "map_Ns"
  | .TextureMapAlpha _ => "map_d"
  | .BumpMap _ => "bump"
  | .DisplacementMap _ => "disp"
  | .StencilDecalTextureMap _ => "decal"
  | .SphericalReflectionMap _ => "refl"

/-- Modelled from the spec: the platform's default numeric-to-text conversion
the writer's format! calls apply to 64-bit float fields, over the rational
model of f64. No claim depends on the exact digits emitted, only on the same
conversion being used wherever a numeric field is rendered. -/
def renderF64 (x : F64) : String :=
  if x.den = 1 then ToString.toString x.num
  else ToString.toString x.num ++ "/" ++ ToString.toString x.den

/-- A byte sink, the Write trait object the writer receives: write_all takes
the current sink state and the chunk and either succeeds with the new state
or fails with the underlying cause, carried as its description (the source
keeps only err.to_string() of the cause). -/
structure Sink (σ : Type) where
  write_all : σ → String → Except String σ

/-- Modelled from the spec: the writer-specific error of src/error.rs (not
among the provided sources), constructed by the writer as
WriterError::new(err.to_string().as_ref()): it carries the description of the
underlying cause. -/
structure WriterError where
  message : String
deriving DecidableEq

/-- Constructor WriterError::new. -/
def WriterError.new (message : String) : WriterError :=
  { message := message }

/-- The rendered field strings of an MTL entity, in writing order; the writer
output is the canonical token and these, single-space separated. -/
def Entity.fields : Entity → List String
  | .Comment content => [content]
  | .MaterialName name => [name]
  | .AmbientColor r g b => [renderF64 r, renderF64 g, renderF64 b]
  | .DiffuseColor r g b => [renderF64 r, renderF64 g, renderF64 b]
  | .SpecularColor r g b => [renderF64 r, renderF64 g, renderF64 b]
  | .SpecularHighlights value => [renderF64 value]
  | .OpticalDensity value => [renderF64 value]
  | .Dissolve value => [renderF64 value]
  | .InvertedDissolve value => [renderF64 value]
  | .Illum mode => [mode.toString]
  | .TextureMapAmbient file => [file]
  | .TextureMapDiffuse file => [file]
  | .TransmissionFilterColorRGB r g b => [renderF64 r, renderF64 g, renderF64 b]
  | .TextureMapSpecular file => [file]
  | .TextureMapHighlight file => [file]
  | .TextureMapAlpha file => [file]
  | .BumpMap file => [file]
  | .DisplacementMap file => [file]
  | .StencilDecalTextureMap file => [file]
  | .SphericalReflectionMap file => [file]

/-- The complete formatted line of one MTL entity: its canonical token, one
space, its rendered fields single-space separated. -/
def renderLine (e : Entity) : String :=
  e.token ++ " " ++ joinSpace e.fields

/-- The closure safecall inside Writer::write (src/mtl/writer.rs lines 16 to
82): one match arm per variant, each issuing a single write_all of the
format!-built line, the token first, then the fields, space separated; the
question-mark operator propagates a sink failure out of the closure. -/
def Writer.safecall {σ : Type} (sink : Sink σ) (st : σ) (e : Entity) :
    Except String σ :=
  match e with
  | .Comment content => sink.write_all st (e.token ++ " " ++ content)
  | .MaterialName name => sink.write_all st (e.token ++ " " ++ name)
  | .AmbientColor r g b =>
      sink.write_all st
        (e.token ++ " " ++ renderF64 r ++ " " ++ renderF64 g ++ " " ++ renderF64 b)
  | .DiffuseColor r g b =>
      sink.write_all st
        (e.token ++ " " ++ renderF64 r ++ " " ++ renderF64 g ++ " " ++ renderF64 b)
  | .SpecularColor r g b =>
      sink.write_all st
        (e.token ++ " " ++ renderF64 r ++ " " ++ renderF64 g ++ " " ++ renderF64 b)
  | .SpecularHighlights value => sink.write_all st (e.token ++ " " ++ renderF64 value)
  | .OpticalDensity value => sink.write_all st (e.token ++ " " ++ renderF64 value)
  | .Dissolve value => sink.write_all st (e.token ++ " " ++ renderF64 value)
  | .InvertedDissolve value => sink.write_all st (e.token ++ " " ++ renderF64 value)
  | .Illum mode => sink.write_all st (e.token ++ " " ++ mode.toString)
  | .TextureMapAmbient file => sink.write_all st (e.token ++ " " ++ file)
  | .TextureMapDiffuse file => sink.write_all st (e.token ++ " " ++ file)
  | .TransmissionFilterColorRGB r g b =>
      sink.write_all st
        (e.token ++ " " ++ renderF64 r ++ " " ++ renderF64 g ++ " " ++ renderF64 b)
  | .TextureMapSpecular file => sink.write_all st (e.token ++ " " ++ file)
  | .TextureMapHighlight file => sink.write_all st (e.token ++ " " ++ file)
  | .TextureMapAlpha file => sink.write_all st (e.token ++ " " ++ file)
  | .BumpMap file => sink.write_all st (e.token ++ " " ++ file)
  | .DisplacementMap file => sink.write_all st (e.token ++ " " ++ file)
  | .StencilDecalTextureMap file => sink.write_all st (e.token ++ " " ++ file)
  | .SphericalReflectionMap file => sink.write_all st (e.token ++ " " ++ file)

/-- Writer::write (src/mtl/writer.rs lines 12 to 89): runs safecall and, when
the sink rejected the write, wraps the cause in a WriterError; a success is
returned as is. -/
def Writer.write {σ : Type} (sink : Sink σ) (st : σ) (e : Entity) :
    Except WriterError σ :=
  match Writer.safecall sink st e with
  | .ok st2 => .ok st2
  | .error err => .error (WriterError.new err)

/-- The in-memory growable sink (the Vec-backed buffer of the conversion
façade): the state is the list of chunks written so far, and a write always
succeeds by appending its chunk. -/
def logSink : Sink (List String) :=
  { write_all := fun st s => .ok (st ++ [s]) }

end Mtl

/-! Helper lemmas shared by the claim theorems. -/

/-- String append is associative, needed to relate the writer's left-nested
append chains to the token-then-fields decomposition. -/
theorem append_assoc_str (a b c : String) : a ++ b ++ c = a ++ (b ++ c) := by
  rcases a with ⟨la⟩
  rcases b with ⟨lb⟩
  rcases c with ⟨lc⟩
  show String.mk (la ++ lb ++ lc) = String.mk (la ++ (lb ++ lc))
  rw [List.append_assoc]

/-- Dropping the length of a prefix from an appended list leaves the suffix;
used to express the bytes one writer invocation appends to a sink. -/
theorem drop_len_append {α : Type} (l m : List α) : (l ++ m).drop l.length = m := by
  induction l with
  | nil => rfl
  | cons a t ih => simp [ih]

/-- The token table read back to constructor tags: every variant's token is
recognized and owned by that variant alone. -/
theorem tagOfToken_token (e : Obj.Entity) : Obj.tagOfToken e.token = e.tag := by
  cases e <;> rfl

/-- One writer invocation performs exactly one sink write, whose chunk is the
complete formatted line of the entity, and the only further behavior is
wrapping a sink failure into a WriterError. -/
theorem write_eq_single_write_all {σ : Type} (sink : Mtl.Sink σ) (st : σ)
    (e : Mtl.Entity) :
    Mtl.Writer.write sink st e =
      match sink.write_all st (Mtl.renderLine e) with
      | .ok st2 => .ok st2
      | .error err => .error (Mtl.WriterError.new err) := by
  cases e <;>
    simp only [Mtl.Writer.write, Mtl.Writer.safecall, Mtl.renderLine,
      Mtl.Entity.fields, Mtl.Entity.token, joinSpace, append_assoc_str]

/-! The claim theorems. -/

/-- C2: contrary to the claim, the conversion façade does not propagate the
Lexer's failure to the caller: From Format for Entity unwraps the lexer
result, so on every line the Lexer rejects the caller receives no failure
value at all — the call panics. The unwrap is modelled by Except.toOption,
whose result none stands for the panic. -/
theorem fromFormat_no_value_on_lexer_failure :
    ∀ (line msg : String),
      Obj.ReadLexer.read_line line = Except.error msg →
      Obj.Entity.fromFormat line = none := by
  intro line msg h
  simp [Obj.Entity.fromFormat, h, Except.toOption]

/-- Witness for C2 at the concrete rejected line "foo 1 2": the lexer fails
on the unknown leading token and the façade yields no value. -/
theorem fromFormat_no_value_witness :
    Obj.Entity.fromFormat "foo 1 2" = none :=
  fromFormat_no_value_on_lexer_failure "foo 1 2" "unknown entity foo" rfl

/-- C3: the OBJ token mapping is total with exactly the published spellings —
each variant maps to its listed token and every token lies in the published
eleven-token set — and injective: two entities with the same token are of the
same variant. -/
theorem obj_token_total_injective :
    ((∀ s, (Obj.Entity.Comment s).token = "#") ∧
     (∀ s, (Obj.Entity.Object s).token = "o") ∧
     (∀ s, (Obj.Entity.Group s).token = "g") ∧
     (∀ s, (Obj.Entity.SmoothingGroup s).token = "s") ∧
     (∀ s, (Obj.Entity.Mtllib s).token = "mtllib") ∧
     (∀ s, (Obj.Entity.Usemtl s).token = "usemtl") ∧
     (∀ x y z w, (Obj.Entity.Vertex x y z w).token = "v") ∧
     (∀ x y z, (Obj.Entity.VertexNormal x y z).token = "vn") ∧
     (∀ x y z, (Obj.Entity.VertexTexture x y z).token = "vt") ∧
     (∀ vs, (Obj.Entity.Face vs).token = "f") ∧
     (∀ vs, (Obj.Entity.Line vs).token = "l")) ∧
    (∀ e : Obj.Entity,
      e.token ∈ ["#", "o", "g", "s", "mtllib", "usemtl", "v", "vn", "vt", "f", "l"]) ∧
    (∀ e₁ e₂ : Obj.Entity, e₁.token = e₂.token → e₁.tag = e₂.tag) := by
  refine ⟨⟨fun _ => rfl, fun _ => rfl, fun _ => rfl, fun _ => rfl, fun _ => rfl,
    fun _ => rfl, fun _ _ _ _ => rfl, fun _ _ _ => rfl, fun _ _ _ => rfl,
    fun _ => rfl, fun _ => rfl⟩, ?_, ?_⟩
  · intro e
    cases e <;> simp only [Obj.Entity.token] <;> decide
  · intro e₁ e₂ h
    rw [← tagOfToken_token e₁, ← tagOfToken_token e₂, h]

/-- C4: against the in-memory sink, the text written for an MTL entity is
exactly its canonical token, a single space, and its rendered fields separated
by single spaces — nothing else, in particular no line terminator appended. -/
theorem mtl_write_token_space_fields :
    ∀ (st : List String) (e : Mtl.Entity),
      Mtl.Writer.write Mtl.logSink st e =
        Except.ok (st ++ [e.token ++ " " ++ joinSpace e.fields]) := by
  intro st e
  rw [write_eq_single_write_all]
  rfl

/-- C5: every sink-level write failure is surfaced by Writer::write as a
writer-specific WriterError wrapping the underlying cause, and a write never
succeeds unless the sink accepted the chunk — a failure is never silently
dropped. -/
theorem mtl_write_failure_surfaced :
    ∀ (σ : Type) (sink : Mtl.Sink σ) (st : σ) (e : Mtl.Entity) (cause : String),
      (sink.write_all st (Mtl.renderLine e) = Except.error cause →
        Mtl.Writer.write sink st e = Except.error (Mtl.WriterError.new cause)) ∧
      (∀ st2, Mtl.Writer.write sink st e = Except.ok st2 →
        sink.write_all st (Mtl.renderLine e) = Except.ok st2) := by
  intro σ sink st e cause
  constructor
  · intro h
    rw [write_eq_single_write_all, h]
  · intro st2 h
    rw [write_eq_single_write_all] at h
    cases hw : sink.write_all st (Mtl.renderLine e) with
    | ok s =>
      rw [hw] at h
      change Except.ok s = Except.ok st2 at h
      injection h with h2
      rw [h2]
    | error err =>
      rw [hw] at h
      change Except.error (Mtl.WriterError.new err) = Except.ok st2 at h
      exact Except.noConfusion h

/-- C6: optional trailing numeric fields are explicit options, so absence and
present-but-zero are distinct entity values: a Vertex without w differs from
one with w zero, a VertexTexture without z differs from one with z zero, and
a FaceVertex with an absent normal or texture index differs from one carrying
index 0. -/
theorem obj_optional_absent_ne_present_zero :
    (∀ x y z : F64,
      Obj.Entity.Vertex x y z none ≠ Obj.Entity.Vertex x y z (some 0)) ∧
    (∀ x y : F64,
      Obj.Entity.VertexTexture x y none ≠ Obj.Entity.VertexTexture x y (some 0)) ∧
    (∀ (v : Int) (t : Option Int),
      Obj.FaceVertex.mk v none t ≠ Obj.FaceVertex.mk v (some 0) t) ∧
    (∀ (v : Int) (n : Option Int),
      Obj.FaceVertex.mk v n none ≠ Obj.FaceVertex.mk v n (some 0)) := by
  refine ⟨?_, ?_, ?_, ?_⟩ <;> intros <;> simp

/-- C7: writing an MTL Illum entity renders its mode as the decimal integer
code after the token illum and a single space, and the mode with code 2
writes exactly the line "illum 2". -/
theorem mtl_illum_renders_code :
    (∀ (st : List String) (m : Mtl.IllumMode),
      Mtl.Writer.write Mtl.logSink st (Mtl.Entity.Illum m) =
        Except.ok (st ++ ["illum " ++ Nat.repr m.code])) ∧
    Mtl.renderLine (Mtl.Entity.Illum Mtl.IllumMode.illum2) = "illum 2" := by
  constructor
  · intro st m
    rw [write_eq_single_write_all]
    rfl
  · rfl

/-- C8: the write transform is stateless and deterministic per call: for one
entity the chunks an invocation appends to the sink are the same whatever the
sink already holds, so the result of an invocation does not depend on any
previous invocation. -/
theorem mtl_write_independent_of_history :
    ∀ (st₁ st₂ : List String) (e : Mtl.Entity),
      (Mtl.Writer.write Mtl.logSink st₁ e).toOption.map
          (fun r => r.drop st₁.length) =
        (Mtl.Writer.write Mtl.logSink st₂ e).toOption.map
          (fun r => r.drop st₂.length) := by
  intro st₁ st₂ e
  rw [write_eq_single_write_all, write_eq_single_write_all]
  show some ((st₁ ++ [Mtl.renderLine e]).drop st₁.length) =
    some ((st₂ ++ [Mtl.renderLine e]).drop st₂.length)
  rw [drop_len_append, drop_len_append]

/-- C9: one writer invocation issues exactly one write to the underlying
sink, passing the complete formatted line as a single contiguous chunk, and
appends nothing else: against any sink the write is one write_all of
renderLine with its failure wrapped, and against the in-memory sink a
successful write grows the sink by exactly one chunk. -/
theorem mtl_write_single_chunk :
    (∀ (σ : Type) (sink : Mtl.Sink σ) (st : σ) (e : Mtl.Entity),
      Mtl.Writer.write sink st e =
        match sink.write_all st (Mtl.renderLine e) with
        | .ok st2 => .ok st2
        | .error err => .error (Mtl.WriterError.new err)) ∧
    (∀ (st : List String) (e : Mtl.Entity),
      (Mtl.Writer.write Mtl.logSink st e).toOption.map List.length =
        some (st.length + 1)) := by
  constructor
  · intro σ sink st e
    exact write_eq_single_write_all sink st e
  · intro st e
    rw [write_eq_single_write_all]
    show some (st ++ [Mtl.renderLine e]).length = some (st.length + 1)
    simp

/-- C10: FaceVertex::new equals FaceVertex::new2 with both optional indices
absent, and the face vertex it builds carries the given vertex index and no
normal or texture index. -/
theorem faceVertex_new_eq_new2 :
    ∀ v : Int,
      Obj.FaceVertex.new v = Obj.FaceVertex.new2 v none none ∧
      (Obj.FaceVertex.new v).vertex = v ∧
      (Obj.FaceVertex.new v).normal = none ∧
      (Obj.FaceVertex.new v).texture = none :=
  fun _ => ⟨rfl, rfl, rfl, rfl⟩

end Wavefront
